import Mathlib

/-
  Verification of the MADCAMP-W4 backend analysis-job orchestrator.

  Shallow embedding of the relevant parts of the source:
    backend/app/services/match_score.py   (match scorer)
    backend/app/services/analysis.py      (submission, status read / stale monitor, delete)
    backend/app/workers/jobs.py           (live-status store)
    backend/app/workers/worker.py         (dispatcher tick, sub-task executors, claim protocol)

  Conventions: Python floats are modelled as exact rationals (event times,
  weights, progress) except where the sigmoid forces real arithmetic;
  timestamps are integers counted in minutes; a Python dict key that may be
  absent is an `Option`; a Python function that may raise is an `Except`.
-/

set_option maxHeartbeats 1000000

namespace MadcampW4

/-! ## Match scorer (backend/app/services/match_score.py) -/

/-- An event with a time and a weight (match_score.py `Event`). -/
structure Event where
  t : ℚ
  weight : ℚ
deriving DecidableEq

/-- Minimum of a nonempty list, Python `min`; 0 on `[]` (the source only
calls it on nonempty lists). -/
def listMin : List ℚ → ℚ
  | [] => 0
  | x :: xs => xs.foldl min x

/-- `min(abs(e.t - t) for t in b_times)` from `_weighted_coverage`. -/
def best_dt (t : ℚ) (b_times : List ℚ) : ℚ :=
  listMin (b_times.map fun u => |t - u|)

/-- One loop iteration's contribution in `_weighted_coverage`:
`if best_dt <= tau: total += max(0, 1 - best_dt/tau) * e.weight`. -/
def coverage_contrib (b_times : List ℚ) (tau : ℚ) (e : Event) : ℚ :=
  if best_dt e.t b_times ≤ tau then max 0 (1 - best_dt e.t b_times / tau) * e.weight else 0

/-- match_score.py `_weighted_coverage`.  The `if not b_times: break` in the
loop zeroes the total exactly when `events_b` is empty; `sum(...) or 1.0`
replaces a zero denominator by 1. -/
def weighted_coverage (events_a events_b : List Event) (tau : ℚ) : ℚ :=
  if events_a = [] then 0
  else
    let b_times := events_b.map Event.t
    let total := if b_times = [] then 0 else (events_a.map (coverage_contrib b_times tau)).sum
    let wsum := (events_a.map Event.weight).sum
    let denom := if wsum = 0 then 1 else wsum
    total / denom

/-- A motion/object event as read by `_load_motion_events`: `hit` events carry
weight 1.0 at their point time, `hold` events weight 0.8 at their start time. -/
inductive MotionEvent where
  | hit (t : ℚ)
  | hold (t_start : ℚ)
deriving DecidableEq

/-- match_score.py `_load_motion_events` applied to one parsed event. -/
def motion_event_to_event : MotionEvent → Event
  | .hit t => ⟨t, 1⟩
  | .hold t => ⟨t, 4/5⟩

/-- match_score.py `_load_motion_events`. -/
def load_motion_events (l : List MotionEvent) : List Event :=
  l.map motion_event_to_event

/-- Music keypoints partitioned by band (`keypoints_by_band` in the music
json: low / mid / high lists of times). -/
structure KeypointsByBand where
  low : List ℚ
  mid : List ℚ
  high : List ℚ
deriving DecidableEq

/-- match_score.py `_load_music_events` on a `keypoints_by_band` document:
band weights low 0.7, mid 0.9, high 1.0, in that order. -/
def load_music_events (m : KeypointsByBand) : List Event :=
  m.low.map (fun t => ⟨t, 7/10⟩) ++ m.mid.map (fun t => ⟨t, 9/10⟩)
    ++ m.high.map (fun t => ⟨t, 1⟩)

/-- match_score.py `_sigmoid`. -/
noncomputable def sigmoid (x k x0 : ℝ) : ℝ :=
  1 / (1 + Real.exp (-k * (x - x0)))

/-- The dict returned by `compute_match_score`. -/
structure MatchScoreInfo where
  score : ℤ
  motion_to_music : ℚ
  tau : ℚ
  sigmoid_k : ℚ
  sigmoid_x0 : ℚ
  score_raw : ℝ

/-- Default `tau` of `compute_match_score` (0.3). -/
def tau_default : ℚ := 3/10

/-- Default `sigmoid_k` of `compute_match_score` (12.0). -/
def sigmoid_k_default : ℚ := 12

/-- Default `sigmoid_x0` of `compute_match_score` (0.55). -/
def sigmoid_x0_default : ℚ := 11/20

/-- match_score.py `compute_match_score`: `int(round(score_raw * 100))` is
modelled with Mathlib's `round` (Python's round-half-to-even differs only at
exact halves, which `score_raw * 100` attains only at 50 where both agree). -/
noncomputable def compute_match_score (music_json : KeypointsByBand)
    (motion_json : List MotionEvent) (tau sigmoid_k sigmoid_x0 : ℚ) : MatchScoreInfo :=
  let music_events := load_music_events music_json
  let motion_events := load_motion_events motion_json
  let motion_to_music := weighted_coverage motion_events music_events tau
  let score_raw : ℝ := sigmoid (motion_to_music : ℝ) (sigmoid_k : ℝ) (sigmoid_x0 : ℝ)
  ⟨round (score_raw * 100), motion_to_music, tau, sigmoid_k, sigmoid_x0, score_raw⟩

/-- Coverage as the specification words it: the sum over motion events whose
minimum distance to some music keypoint is ≤ τ of `(1 - delta/τ) * weight`,
divided by the total motion-event weight (real division, so 0 when there are
no motion events). -/
def coverage_spec (motion_events music_events : List Event) (tau : ℚ) : ℚ :=
  let b_times := music_events.map Event.t
  ((motion_events.map fun e =>
      if b_times ≠ [] ∧ best_dt e.t b_times ≤ tau
      then (1 - best_dt e.t b_times / tau) * e.weight else 0).sum)
    / (motion_events.map Event.weight).sum

/-! ## Live-status store (backend/app/workers/jobs.py) -/

/-- A row of `analysis_jobs` (models.AnalysisJob).  `updated_at` is a
server-maintained column (`onupdate=func.now()`), so it is always set. -/
structure JobRow where
  status : String
  error_message : Option String
  message : Option String
  progress : Option ℚ
  log : Option String
  updated_at : ℤ
deriving DecidableEq

/-- The dict built by jobs.py `get_job` (and the in-memory `_jobs` entries):
keys status / error / message / progress / log.  Crucially the source never
puts an `updated_at` key in this dict, so `updated_at` is always `none`. -/
structure JobDict where
  status : Option String
  error : Option String
  message : Option String
  progress : Option ℚ
  log : Option String
  updated_at : Option ℤ
deriving DecidableEq

/-- jobs.py `get_job`: prefer the DB row (serialised without `updated_at`),
fall back to the in-memory cache entry. -/
def get_job (dbRow : Option JobRow) (mem : Option JobDict) : Option JobDict :=
  match dbRow with
  | some r => some ⟨some r.status, r.error_message, r.message, r.progress, r.log, none⟩
  | none => mem

/-- jobs.py `set_job` effect on the `analysis_jobs` row: status is always
overwritten, the other fields only when the argument is not `None`;
`updated_at` is refreshed by the DB. -/
def set_job (row : Option JobRow) (now : ℤ) (status : String)
    (error message : Option String) (progress : Option ℚ) (log : Option String) : JobRow :=
  let r := row.getD ⟨status, none, none, none, none, now⟩
  { status := status
    error_message := error <|> r.error_message
    message := message <|> r.message
    progress := progress <|> r.progress
    log := log <|> r.log
    updated_at := now }

/-! ## Requests (models.AnalysisRequest; params_json flags as booleans) -/

/-- A row of `analysis_requests`.  The `params_json` dict is modelled by its
three recognised flags.  Timestamps are minutes. -/
structure AnalysisRequestRow where
  id : ℕ
  user_id : ℕ
  video_id : Option ℕ
  audio_id : Option ℕ
  mode : String
  music_only : Bool
  skip_music : Bool
  extract_audio : Bool
  status : String
  error_message : Option String
  is_deleted : Bool
  created_at : ℤ
  started_at : Option ℤ
  finished_at : Option ℤ
deriving DecidableEq

/-- The merged status payload returned by `get_analysis_status`. -/
structure StatusView where
  id : ℕ
  status : String
  error_message : Option String
  message : Option String
  progress : Option ℚ
  log : Option String
deriving DecidableEq

/-- The merge at the end of `get_analysis_status`:
`job.get("status", req.status)`, `job.get("error") or req.error_message`. -/
def merged_view (req : AnalysisRequestRow) (job : JobDict) : StatusView :=
  ⟨req.id, job.status.getD req.status, job.error <|> req.error_message,
   job.message, job.progress, job.log⟩

/-- The empty dict used by `get_analysis_status` when `get_job` returns
nothing (`get_job(...) or {}`). -/
def emptyJobDict : JobDict := ⟨none, none, none, none, none, none⟩

/-- analysis.py `get_analysis_status`, including `_mark_stale_running`.
`stale_minutes` stands for `STALE_RUNNING_MINUTES` (which config.py does not
actually define; it is modelled as a parameter).  Returns the updated request
row, the updated job row, and the merged view.  The stale test reads
`job.get("updated_at") or req.started_at`; since `get_job` never emits an
`updated_at` key, the first operand is always `None`. -/
def get_analysis_status (stale_minutes now : ℤ) (req0 : Option AnalysisRequestRow)
    (jobRow : Option JobRow) (mem : Option JobDict) :
    Except (ℕ × String) (AnalysisRequestRow × Option JobRow × StatusView) :=
  match req0 with
  | none => .error (404, "not found")
  | some req =>
    if req.is_deleted then .error (404, "not found")
    else
      let job := (get_job jobRow mem).getD emptyJobDict
      let job_status := job.status.getD req.status
      let upd := job.updated_at <|> req.started_at
      let stale :=
        if stale_minutes ≤ 0 then false
        else if job_status ≠ "running" then false
        else match upd with
          | none => false
          | some u => decide (u < now - stale_minutes)
      if stale then
        let msg := "analysis stalled; please retry"
        let req1 := { req with status := "failed", error_message := some msg,
                               finished_at := some now }
        let jobRow1 := set_job jobRow now "failed" (some msg) (some "stalled") (some 1) none
        let job1 := { job with status := some "failed", error := some msg,
                               message := some "stalled", progress := some 1 }
        .ok (req1, some jobRow1, merged_view req1 job1)
      else
        .ok (req, jobRow, merged_view req job)

/-! ## Claim protocol (worker.py `_fetch_request` / `_tick`)

A worker's fetch issues `SELECT ... FOR UPDATE SKIP LOCKED` over rows whose
status matches its class filter; the subsequent commit flips the status to
`running` and releases the row lock.  Both are modelled as atomic steps of a
transition system over all requests. -/

/-- Global store state for the claim protocol: per request id, its status,
the worker currently holding its row lock, and the history of workers that
have transitioned it to `running`. -/
structure ClaimState where
  status : ℕ → String
  lock : ℕ → Option ℕ
  claimedBy : ℕ → List ℕ

/-- A queue status a worker class may fetch (`queued` for motion/magic/dance
workers, `queued_music` for music workers). -/
def fetchable (s : String) : Prop := s = "queued" ∨ s = "queued_music"

instance (s : String) : Decidable (fetchable s) := by
  unfold fetchable; infer_instance

/-- One atomic event of the claim protocol.
`fetch` models `_fetch_request`: it can only lock an *unlocked* row whose
status passes the worker's filter (SKIP LOCKED makes locked rows invisible).
`commit_running` models `_tick` lines 115-118: only the lock holder flips the
status to `running`; the commit releases the lock. -/
inductive ClaimStep : ClaimState → ClaimState → Prop where
  | fetch (w r : ℕ) (s : ClaimState) :
      s.lock r = none → fetchable (s.status r) →
      ClaimStep s { s with lock := Function.update s.lock r (some w) }
  | commit_running (w r : ℕ) (s : ClaimState) :
      s.lock r = some w →
      ClaimStep s
        { status := Function.update s.status r "running"
          lock := Function.update s.lock r none
          claimedBy := Function.update s.claimedBy r (s.claimedBy r ++ [w]) }

/-- Reachability under worker steps. -/
def ClaimReach : ClaimState → ClaimState → Prop :=
  Relation.ReflTransGen ClaimStep

/-- An initial store: no row lock is held and no request has ever been
claimed (statuses are arbitrary). -/
def ClaimInit (s : ClaimState) : Prop :=
  (∀ r, s.lock r = none) ∧ (∀ r, s.claimedBy r = [])

/-- The inductive invariant of the claim protocol. -/
def ClaimInv (s : ClaimState) : Prop :=
  ∀ r, (fetchable (s.status r) → s.claimedBy r = [])
    ∧ (s.claimedBy r).length ≤ 1
    ∧ (s.lock r ≠ none → fetchable (s.status r))

/-! ## Worker execution paths (worker.py) -/

/-- A row of `analysis_results` (models.AnalysisResult plus the columns added
by migrations.py: stems, match_score, match_details). -/
structure AnalysisResultRow where
  motion_json_s3_key : Option String
  music_json_s3_key : Option String
  magic_json_s3_key : Option String
  overlay_video_s3_key : Option String
  stem_drums_s3_key : Option String
  stem_bass_s3_key : Option String
  stem_vocals_s3_key : Option String
  stem_other_s3_key : Option String
  stem_drum_low_s3_key : Option String
  stem_drum_mid_s3_key : Option String
  stem_drum_high_s3_key : Option String
  match_score : Option ℤ
  match_details : Option MatchScoreInfo

/-- A stored artifact as downloaded and then given to `json.load`: either a
well-formed motion/object document, a well-formed music document, or bytes
that `json.load` rejects. -/
inductive RawDoc where
  | motionDoc (events : List MotionEvent)
  | musicDoc (kp : KeypointsByBand)
  | malformed

/-- `json.load` of a motion artifact followed by `_load_motion_events`: any
valid json parses (a wrong-shape document just yields no events); malformed
bytes raise. -/
def json_load_motion : RawDoc → Except Unit (List MotionEvent)
  | .motionDoc es => .ok es
  | .musicDoc _ => .ok []
  | .malformed => .error ()

/-- `json.load` of a music artifact: wrong-shape documents yield no
keypoints; malformed bytes raise. -/
def json_load_music : RawDoc → Except Unit KeypointsByBand
  | .motionDoc _ => .ok ⟨[], [], []⟩
  | .musicDoc kp => .ok kp
  | .malformed => .error ()

/-- Whether an `Except` finished without raising. -/
def except_ok {ε α : Type} : Except ε α → Bool
  | .ok _ => true
  | .error _ => false

/-- `motion_key = res.motion_json_s3_key or res.magic_json_s3_key`. -/
def motion_key_of (res : AnalysisResultRow) : Option String :=
  res.motion_json_s3_key <|> res.magic_json_s3_key

/-- worker.py `MotionAnalysisWorker._compute_match_if_ready`.  `fetch` is the
object store (`download_fileobj`), which may fail.  The two downloads happen
*before* the `try:` block, so a download failure propagates to the caller
(`.error`); everything from `json.load` on is inside the `try:` and is
swallowed, leaving the row unchanged. -/
noncomputable def compute_match_if_ready (res : Option AnalysisResultRow)
    (fetch : String → Except String RawDoc) :
    Except String (Option AnalysisResultRow) :=
  match res with
  | none => .ok none
  | some r =>
    if r.match_score.isSome then .ok (some r)
    else
      match motion_key_of r, r.music_json_s3_key with
      | none, _ => .ok (some r)
      | some _, none => .ok (some r)
      | some mk, some muk =>
        match fetch mk with
        | .error e => .error e
        | .ok motionRaw =>
          match fetch muk with
          | .error e => .error e
          | .ok musicRaw =>
            match json_load_motion motionRaw, json_load_music musicRaw with
            | .ok motion_json, .ok music_json =>
              let info := compute_match_score music_json motion_json
                tau_default sigmoid_k_default sigmoid_x0_default
              .ok (some { r with match_score := some info.score,
                                 match_details := some info })
            | _, _ => .ok (some r)

/-- worker.py `MusicAnalysisWorker._handle_request` lines 611-631: after the
music result is stored, if a motion/object artifact already exists the score
is recomputed — with *no* check that a score is already stored.  The whole
block sits in a `try:`, so every failure (download included) is swallowed.
`music_json` is the freshly produced local document. -/
noncomputable def music_worker_score_tail (r : AnalysisResultRow)
    (fetch : String → Except String RawDoc) (music_json : KeypointsByBand) :
    AnalysisResultRow :=
  match motion_key_of r with
  | none => r
  | some mk =>
    match fetch mk with
    | .error _ => r
    | .ok raw =>
      match json_load_motion raw with
      | .error _ => r
      | .ok motion_json =>
        let info := compute_match_score music_json motion_json
          tau_default sigmoid_k_default sigmoid_x0_default
        { r with match_score := some info.score, match_details := some info }

/-- One `set_job` publication as externally observed. -/
structure PublishedStatus where
  status : String
  error : Option String
  message : Option String
  progress : Option ℚ
  log : Option String
deriving DecidableEq

/-- Outcome of `_handle_request` as seen by `_tick`: either it returned
normally (with the possibly mutated request row) or it raised. -/
inductive HandlerResult where
  | finished (req : AnalysisRequestRow)
  | raised (msg : String) (req : AnalysisRequestRow)

/-- worker.py `BaseAnalysisWorker._tick` after `_handle_request` (lines
123-139): a normal return finalizes to `done` (or republishes `queued` when
the handler deferred to the music class); any exception — including the
`RuntimeError("deleted")` raised by `_abort_if_deleted` — takes the generic
failure branch, which marks the request `failed` and publishes a failed
status with the stringified exception. -/
def tick_finalize (now : ℤ) : HandlerResult → AnalysisRequestRow × List PublishedStatus
  | .finished req =>
    if req.status = "queued_music" then
      (req, [⟨"queued", none, some "music: queued", some (5/100), none⟩])
    else
      ({ req with status := "done", finished_at := some now },
       [⟨"done", none, some "completed", some 1, none⟩])
  | .raised e req =>
    ({ req with status := "failed", error_message := some e, finished_at := some now },
     [⟨"failed", some e, some "failed", some 1, some (e.take 4000)⟩])

/-- worker.py `BaseAnalysisWorker._abort_if_deleted`: re-reads the row and
raises `RuntimeError("deleted")` when the deleted flag is set. -/
def abort_if_deleted (req : AnalysisRequestRow) : Except (String × AnalysisRequestRow) Unit :=
  if req.is_deleted then .error ("deleted", req) else .ok ()

/-- The tail of `_run_dance` / `_run_magic` as seen by `_tick`: the handler's
last step calls `_compute_match_if_ready`, whose exceptions propagate. -/
noncomputable def run_match_phase (req : AnalysisRequestRow)
    (res : Option AnalysisResultRow) (fetch : String → Except String RawDoc) :
    HandlerResult :=
  match compute_match_if_ready res fetch with
  | .error e => .raised e req
  | .ok _ => .finished req

/-! ## Published progress checkpoints (worker.py `set_job` calls with a
progress argument, in program order per execution path) -/

/-- Progress published while a dance request is executed: `_tick` (0.03),
`_run_dance` (0.12, 0.22, 0.45, 0.7, 0.85), optionally
`_compute_match_if_ready` (0.92, 0.95), then `_tick` completion (1.0). -/
def dance_progress_seq (scoring : Bool) : List ℚ :=
  [3/100, 12/100, 22/100, 45/100, 70/100, 85/100]
    ++ (if scoring then [92/100, 95/100] else []) ++ [1]

/-- Progress published while a magic request is executed: `_tick` (0.03),
`_run_magic` (0.12, 0.45, 0.7, 0.85), optional scoring, completion (1.0). -/
def magic_progress_seq (scoring : Bool) : List ℚ :=
  [3/100, 12/100, 45/100, 70/100, 85/100]
    ++ (if scoring then [92/100, 95/100] else []) ++ [1]

/-- Progress values emitted through the `run_music_analysis` progress
callback (music_analysis.py): stems 0.42, optional drum_bands 0.5, cnn_onsets
0.62, keypoints 0.72, textures 0.8, optional bass 0.86, write_json 0.92. -/
def music_cb_seq (drum_bands bass : Bool) : List ℚ :=
  [42/100] ++ (if drum_bands then [50/100] else []) ++ [62/100, 72/100, 80/100]
    ++ (if bass then [86/100] else []) ++ [92/100]

/-- Progress published while a music request is executed by
`MusicAnalysisWorker._handle_request`: `_tick` (0.03), download (0.12),
optional ffmpeg extraction (0.26), prepare (0.35), the analysis callback,
upload (0.95), then — when a motion/object artifact already exists — the
scoring block republishes 0.92 and 0.95, and finally `_tick` completion
(1.0). -/
def music_progress_seq (from_video drum_bands bass scoring : Bool) : List ℚ :=
  [3/100, 12/100] ++ (if from_video then [26/100] else []) ++ [35/100]
    ++ music_cb_seq drum_bands bass ++ [95/100]
    ++ (if scoring then [92/100, 95/100] else []) ++ [1]

/-! ## Submission (analysis.py `_require_owned_media`, `create_analysis_request`) -/

/-- A row of `media_files`. -/
structure MediaFileRow where
  id : ℕ
  user_id : ℕ
  type : String
  s3_key : String
deriving DecidableEq

/-- `db.query(MediaFile).filter(MediaFile.id == media_id).first()`. -/
def media_by_id (store : List MediaFileRow) (media_id : ℕ) : Option MediaFileRow :=
  store.find? (fun m => m.id == media_id)

/-- analysis.py `_require_owned_media`: missing media is a 404 with the
caller's not-found detail; media owned by someone else is a **403** with the
caller's forbidden detail; only then is the media type checked (400). -/
def require_owned_media (store : List MediaFileRow) (user_id media_id : ℕ)
    (expected_type : Option String) (not_found_detail forbidden_detail : String) :
    Except (ℕ × String) MediaFileRow :=
  match media_by_id store media_id with
  | none => .error (404, not_found_detail)
  | some media =>
    if media.user_id ≠ user_id then .error (403, forbidden_detail)
    else
      match expected_type with
      | some t =>
        if media.type ≠ t then .error (400, "media must be " ++ t ++ " type")
        else .ok media
      | none => .ok media

/-- The submission payload (AnalysisRequestCreate): media refs, mode, and the
recognised params_json flags. -/
structure AnalysisRequestCreatePayload where
  video_id : Option ℕ
  audio_id : Option ℕ
  mode : String
  music_only : Bool
  skip_music : Bool
  extract_audio : Bool
deriving DecidableEq

/-- The request produced by a successful submission (user, refs, mode, the
derived params flags, and the initial status). -/
structure NewAnalysisRequest where
  user_id : ℕ
  video_id : Option ℕ
  audio_id : Option ℕ
  mode : String
  music_only : Bool
  skip_music : Bool
  extract_audio : Bool
  status : String
deriving DecidableEq

/-- analysis.py `create_analysis_request`: reject 400 when neither ref is
present; check video then audio ref through `_require_owned_media`; derive
params/status — no video forces `music_only` and `queued_music`, video
without audio and without `extract_audio` sets `skip_music`. -/
def create_analysis_request (store : List MediaFileRow) (user_id : ℕ)
    (p : AnalysisRequestCreatePayload) : Except (ℕ × String) NewAnalysisRequest :=
  if p.video_id = none ∧ p.audio_id = none then
    .error (400, "video or audio is required")
  else
    match (match p.video_id with
           | some v => (require_owned_media store user_id v (some "video")
               "video media not found" "video must belong to you").map fun _ => ()
           | none => .ok ()) with
    | .error e => .error e
    | .ok _ =>
      match (match p.audio_id with
             | some a => (require_owned_media store user_id a (some "audio")
                 "audio media not found" "audio must belong to you").map fun _ => ()
             | none => .ok ()) with
      | .error e => .error e
      | .ok _ =>
        if p.video_id = none then
          .ok ⟨user_id, p.video_id, p.audio_id, p.mode,
               true, p.skip_music, p.extract_audio, "queued_music"⟩
        else if p.audio_id = none ∧ ¬ p.extract_audio then
          .ok ⟨user_id, p.video_id, p.audio_id, p.mode,
               p.music_only, true, p.extract_audio, "queued"⟩
        else
          .ok ⟨user_id, p.video_id, p.audio_id, p.mode,
               p.music_only, p.skip_music, p.extract_audio, "queued"⟩

/-! ## Delete (analysis.py `delete_analysis_request`) -/

/-- A row of `analysis_edits`. -/
structure AnalysisEditRow where
  motion_markers_s3_key : String
  edited_overlay_s3_key : Option String
deriving DecidableEq

/-- The rows stored for one analysis request. -/
structure DbStore where
  req : Option AnalysisRequestRow
  res : Option AnalysisResultRow
  edit : Option AnalysisEditRow
  job : Option JobRow

/-- The eleven result s3 keys collected by `delete_analysis_request`. -/
def result_keys (res : AnalysisResultRow) : List (Option String) :=
  [res.motion_json_s3_key, res.music_json_s3_key, res.magic_json_s3_key,
   res.overlay_video_s3_key, res.stem_drums_s3_key, res.stem_bass_s3_key,
   res.stem_vocals_s3_key, res.stem_other_s3_key, res.stem_drum_low_s3_key,
   res.stem_drum_mid_s3_key, res.stem_drum_high_s3_key]

/-- analysis.py `delete_analysis_request`: 404 when the request is missing or
not owned; an *already deleted* request returns immediately with no change
and no storage deletion; otherwise the result/edit keys are deleted from
storage (`[key for key in keys if key]`), the result/edit/job rows dropped,
and the request soft-deleted with status `failed`, error `deleted`.  Returns
the new store and the list of storage keys passed to `delete_keys`. -/
def delete_analysis_request (st : DbStore) (user_id : ℕ) (now : ℤ) :
    Except (ℕ × String) (DbStore × List String) :=
  match st.req with
  | none => .error (404, "not found")
  | some req =>
    if req.user_id ≠ user_id then .error (404, "not found")
    else if req.is_deleted then .ok (st, [])
    else
      let keys :=
        ((match st.res with | some res => result_keys res | none => [])
          ++ (match st.edit with
              | some e => [some e.motion_markers_s3_key, e.edited_overlay_s3_key]
              | none => [])).filterMap id
      .ok ({ req := some { req with is_deleted := true, status := "failed",
                                    error_message := some "deleted",
                                    finished_at := some now },
             res := none, edit := none, job := none }, keys)

/-! ## Lemmas: match scorer -/

theorem foldl_min_nonneg (xs : List ℚ) (a : ℚ) (ha : 0 ≤ a)
    (h : ∀ x ∈ xs, 0 ≤ x) : 0 ≤ xs.foldl min a := by
  induction xs generalizing a with
  | nil => exact ha
  | cons y ys ih =>
    refine ih (min a y) (le_min ha (h y (by simp))) fun x hx => h x (by simp [hx])

theorem best_dt_nonneg (t : ℚ) (ts : List ℚ) : 0 ≤ best_dt t ts := by
  unfold best_dt listMin
  cases h : ts.map fun u => |t - u| with
  | nil => simp
  | cons x xs =>
    have hall : ∀ y ∈ x :: xs, (0:ℚ) ≤ y := by
      rw [← h]
      intro y hy
      obtain ⟨u, _, rfl⟩ := List.mem_map.mp hy
      exact abs_nonneg _
    exact foldl_min_nonneg xs x (hall x (by simp)) fun y hy => hall y (by simp [hy])

theorem coverage_contrib_eq_spec (b_times : List ℚ) (tau : ℚ) (htau : 0 < tau)
    (hb : b_times ≠ []) (e : Event) :
    coverage_contrib b_times tau e
      = if b_times ≠ [] ∧ best_dt e.t b_times ≤ tau
        then (1 - best_dt e.t b_times / tau) * e.weight else 0 := by
  unfold coverage_contrib
  by_cases hd : best_dt e.t b_times ≤ tau
  · have h1 : best_dt e.t b_times / tau ≤ 1 := (div_le_one htau).mpr hd
    rw [if_pos hd, if_pos ⟨hb, hd⟩, max_eq_right (by linarith)]
  · rw [if_neg hd, if_neg (by tauto)]

theorem load_motion_weight_pos (l : List MotionEvent) :
    ∀ e ∈ load_motion_events l, 0 < e.weight := by
  intro e he
  obtain ⟨m, _, rfl⟩ := List.mem_map.mp he
  cases m <;> norm_num [motion_event_to_event]

theorem weighted_coverage_eq_spec (a b : List Event) (tau : ℚ) (htau : 0 < tau)
    (hw : ∀ e ∈ a, 0 < e.weight) :
    weighted_coverage a b tau = coverage_spec a b tau := by
  unfold weighted_coverage coverage_spec
  by_cases ha : a = []
  · subst ha; simp
  · rw [if_neg ha]
    have hwsum : 0 < (a.map Event.weight).sum := by
      refine List.sum_pos _ (fun x hx => ?_) (by simpa using ha)
      obtain ⟨e, he, rfl⟩ := List.mem_map.mp hx
      exact hw e he
    by_cases hb : b.map Event.t = []
    · simp only [hb]
      have : ∀ e ∈ a, (if (List.nil (α := ℚ)) ≠ [] ∧ best_dt e.t [] ≤ tau
          then (1 - best_dt e.t [] / tau) * e.weight else 0) = (0:ℚ) := by
        intro e _; simp
      rw [List.map_congr_left this]
      simp [if_neg (ne_of_gt hwsum)]
    · simp only [if_neg hb, if_neg (ne_of_gt hwsum)]
      congr 1
      exact congrArg List.sum
        (List.map_congr_left fun e _ => coverage_contrib_eq_spec _ tau htau hb e)

theorem round_eq_of_bounds (x : ℝ) (n : ℤ) (h1 : (n:ℝ) - 1/2 ≤ x)
    (h2 : x < (n:ℝ) + 1/2) : round x = n := by
  rw [round_eq, Int.floor_eq_iff]
  refine ⟨by linarith, by linarith⟩

theorem exp_one_cube_lb : (19.9:ℝ) < Real.exp 1 * Real.exp 1 * Real.exp 1 := by
  have he : (2.71:ℝ) < Real.exp 1 := lt_trans (by norm_num) Real.exp_one_gt_d9
  have hp : (0:ℝ) < Real.exp 1 := Real.exp_pos 1
  nlinarith [sq_nonneg (Real.exp 1 - 2.71), sq_nonneg (Real.exp 1 + 2.71)]

theorem exp_one_cube_ub : Real.exp 1 * Real.exp 1 * Real.exp 1 < 20.13 := by
  have he : Real.exp 1 < 2.72 := lt_trans Real.exp_one_lt_d9 (by norm_num)
  have hp : (0:ℝ) < Real.exp 1 := Real.exp_pos 1
  nlinarith [sq_nonneg (Real.exp 1 - 2.72), sq_nonneg (Real.exp 1 + 2.72)]

theorem exp_two_fifths_lb : (7/5 : ℝ) ≤ Real.exp (2/5) := by
  have := Real.add_one_le_exp (2/5 : ℝ)
  linarith

theorem exp_two_fifths_ub : Real.exp (2/5) ≤ 5/3 := by
  have h := Real.add_one_le_exp (-(2/5) : ℝ)
  have h2 : Real.exp (2/5) * Real.exp (-(2/5)) = 1 := by
    rw [← Real.exp_add]; norm_num
  nlinarith [Real.exp_pos (2/5 : ℝ)]

theorem exp_seventeen_fifths_eq :
    Real.exp (17/5) = Real.exp 1 * Real.exp 1 * Real.exp 1 * Real.exp (2/5) := by
  rw [← Real.exp_add, ← Real.exp_add, ← Real.exp_add]
  norm_num

theorem exp_seventeen_fifths_lb : (193/7 : ℝ) < Real.exp (17/5) := by
  rw [exp_seventeen_fifths_eq]
  have h1 := exp_one_cube_lb
  have h2 := exp_two_fifths_lb
  calc (193/7 : ℝ) < 19.9 * (7/5) := by norm_num
  _ ≤ (Real.exp 1 * Real.exp 1 * Real.exp 1) * Real.exp (2/5) := by
      apply mul_le_mul h1.le h2 (by norm_num) (by positivity)

theorem exp_seventeen_fifths_ub : Real.exp (17/5) < 39 := by
  rw [exp_seventeen_fifths_eq]
  have h1 := exp_one_cube_ub
  have h2 := exp_two_fifths_ub
  calc Real.exp 1 * Real.exp 1 * Real.exp 1 * Real.exp (2/5)
      ≤ Real.exp 1 * Real.exp 1 * Real.exp 1 * (5/3) := by
        apply mul_le_mul_of_nonneg_left h2 (by positivity)
  _ < 20.13 * (5/3) := by
        apply mul_lt_mul_of_pos_right h1 (by norm_num)
  _ < 39 := by norm_num

theorem round_sigmoid_5_6 : round (sigmoid (5/6 : ℝ) 12 (11/20) * 100) = 97 := by
  unfold sigmoid
  have harg : -(12:ℝ) * ((5/6 : ℝ) - 11/20) = -(17/5) := by norm_num
  rw [harg, Real.exp_neg]
  have hpos : (0:ℝ) < Real.exp (17/5) := Real.exp_pos _
  have hinvpos : (0:ℝ) < (Real.exp (17/5))⁻¹ := by positivity
  have hri : Real.exp (17/5) * (Real.exp (17/5))⁻¹ = 1 := mul_inv_cancel₀ hpos.ne'
  have hlb := exp_seventeen_fifths_lb
  have hub := exp_seventeen_fifths_ub
  have hs : (0:ℝ) < 1 + (Real.exp (17/5))⁻¹ := by positivity
  have hexpr : 1 / (1 + (Real.exp (17/5))⁻¹) * 100 = 100 / (1 + (Real.exp (17/5))⁻¹) := by
    ring
  rw [hexpr]
  apply round_eq_of_bounds
  · rw [le_div_iff₀ hs]
    push_cast
    nlinarith
  · rw [div_lt_iff₀ hs]
    push_cast
    nlinarith

theorem exp_thirty_three_fifths_eq :
    Real.exp (33/5) = Real.exp 1 * Real.exp 1 * Real.exp 1
      * (Real.exp 1 * Real.exp 1 * Real.exp 1) * Real.exp (3/5) := by
  have h : (33/5 : ℝ) = 1 + 1 + 1 + (1 + 1 + 1) + 3/5 := by norm_num
  rw [h]
  simp only [Real.exp_add]

theorem exp_thirty_three_fifths_lb : (199 : ℝ) < Real.exp (33/5) := by
  rw [exp_thirty_three_fifths_eq]
  have h1 := exp_one_cube_lb
  have h3 : (8/5 : ℝ) ≤ Real.exp (3/5) := by
    have := Real.add_one_le_exp (3/5 : ℝ); linarith
  have hcube : (0:ℝ) ≤ Real.exp 1 * Real.exp 1 * Real.exp 1 := by positivity
  calc (199 : ℝ) < 19.9 * 19.9 * (8/5) := by norm_num
  _ ≤ Real.exp 1 * Real.exp 1 * Real.exp 1 * (Real.exp 1 * Real.exp 1 * Real.exp 1)
        * Real.exp (3/5) := by
      apply mul_le_mul (mul_le_mul h1.le h1.le (by norm_num) hcube) h3 (by norm_num)
        (by positivity)

theorem round_sigmoid_zero : round (sigmoid (0 : ℝ) 12 (11/20) * 100) = 0 := by
  unfold sigmoid
  have harg : -(12:ℝ) * ((0 : ℝ) - 11/20) = 33/5 := by norm_num
  rw [harg]
  have hpos : (0:ℝ) < Real.exp (33/5) := Real.exp_pos _
  have hlb := exp_thirty_three_fifths_lb
  have hs : (0:ℝ) < 1 + Real.exp (33/5) := by positivity
  have hexpr : 1 / (1 + Real.exp (33/5)) * 100 = 100 / (1 + Real.exp (33/5)) := by ring
  rw [hexpr]
  apply round_eq_of_bounds
  · have : (0:ℝ) < 100 / (1 + Real.exp (33/5)) := by positivity
    push_cast
    linarith
  · rw [div_lt_iff₀ hs]
    push_cast
    linarith

/-- Needed by both C9 and the C4 counterexample: with no motion events the
score computed at default parameters is 0. -/
theorem compute_match_score_no_motion (music : KeypointsByBand) :
    (compute_match_score music [] tau_default sigmoid_k_default sigmoid_x0_default).score
      = 0 := by
  show round (sigmoid ((weighted_coverage (load_motion_events [])
      (load_music_events music) tau_default : ℚ) : ℝ)
      ((sigmoid_k_default : ℚ) : ℝ) ((sigmoid_x0_default : ℚ) : ℝ) * 100) = 0
  have hcov : weighted_coverage (load_motion_events []) (load_music_events music)
      tau_default = 0 := by
    simp [load_motion_events, weighted_coverage]
  rw [hcov]
  have e0 : ((0 : ℚ) : ℝ) = 0 := by norm_num
  have ek : ((sigmoid_k_default : ℚ) : ℝ) = 12 := by norm_num [sigmoid_k_default]
  have ex : ((sigmoid_x0_default : ℚ) : ℝ) = 11/20 := by norm_num [sigmoid_x0_default]
  rw [e0, ek, ex]
  exact round_sigmoid_zero

/-! ## Claim theorems: match scorer (C3, C9) -/

/-- C3: for every list of motion events and banded music keypoints (and any
positive tolerance), the computed match score equals
`round(100 * sigmoid(coverage))` with coverage as the spec words it; and on
motion `[{t:1.0,type:hit}]` with one low-band keypoint at 1.05 and the
default parameters the score is 97. -/
theorem c3_match_score_formula :
    (∀ (music : KeypointsByBand) (motion : List MotionEvent) (tau k x0 : ℚ),
        0 < tau →
        (compute_match_score music motion tau k x0).score
          = round ((100:ℝ) * sigmoid
              ((coverage_spec (load_motion_events motion) (load_music_events music) tau
                : ℚ) : ℝ) (k:ℝ) (x0:ℝ)))
    ∧ (compute_match_score ⟨[21/20], [], []⟩ [.hit 1]
        tau_default sigmoid_k_default sigmoid_x0_default).score = 97 := by
  constructor
  · intro music motion tau k x0 htau
    show round (sigmoid ((weighted_coverage (load_motion_events motion)
        (load_music_events music) tau : ℚ) : ℝ) (k:ℝ) (x0:ℝ) * 100) = _
    rw [weighted_coverage_eq_spec _ _ tau htau (load_motion_weight_pos motion),
      mul_comm]
  · show round (sigmoid ((weighted_coverage (load_motion_events [.hit 1])
        (load_music_events ⟨[21/20], [], []⟩) tau_default : ℚ) : ℝ)
        ((sigmoid_k_default : ℚ) : ℝ) ((sigmoid_x0_default : ℚ) : ℝ) * 100) = 97
    have hcov : weighted_coverage (load_motion_events [.hit 1])
        (load_music_events ⟨[21/20], [], []⟩) tau_default = 5/6 := by
      have habs : |(1/20 : ℚ)| = 1/20 := abs_of_nonneg (by norm_num)
      norm_num [weighted_coverage, coverage_contrib, best_dt, listMin,
        load_motion_events, load_music_events, motion_event_to_event, tau_default,
        habs, sup_eq_max, max_def]
    rw [hcov]
    have e1 : ((5/6 : ℚ) : ℝ) = 5/6 := by norm_num
    have ek : ((sigmoid_k_default : ℚ) : ℝ) = 12 := by norm_num [sigmoid_k_default]
    have ex : ((sigmoid_x0_default : ℚ) : ℝ) = 11/20 := by norm_num [sigmoid_x0_default]
    rw [e1, ek, ex]
    exact round_sigmoid_5_6

/-- C3 witness: the theorem's hypothesis `0 < tau` holds at the default
tolerance, where the general formula is instantiated at the concrete
example. -/
theorem c3_match_score_formula_witness :
    0 < tau_default
    ∧ (compute_match_score ⟨[21/20], [], []⟩ [.hit 1]
        tau_default sigmoid_k_default sigmoid_x0_default).score
      = round ((100:ℝ) * sigmoid
          ((coverage_spec (load_motion_events [.hit 1])
            (load_music_events ⟨[21/20], [], []⟩) tau_default : ℚ) : ℝ)
          ((sigmoid_k_default : ℚ):ℝ) ((sigmoid_x0_default : ℚ):ℝ)) :=
  ⟨by norm_num [tau_default],
   c3_match_score_formula.1 ⟨[21/20], [], []⟩ [.hit 1] tau_default
     sigmoid_k_default sigmoid_x0_default (by norm_num [tau_default])⟩

/-- C9: with no motion events the coverage computation is total and returns
exactly 0, and the score equals `round(sigmoid(0)*100)`, which is 0 at the
default parameters. -/
theorem c9_no_motion_events (music : KeypointsByBand) :
    (compute_match_score music [] tau_default sigmoid_k_default
        sigmoid_x0_default).motion_to_music = 0
    ∧ (compute_match_score music [] tau_default sigmoid_k_default
        sigmoid_x0_default).score
      = round (sigmoid 0 ((sigmoid_k_default : ℚ):ℝ) ((sigmoid_x0_default : ℚ):ℝ) * 100)
    ∧ (compute_match_score music [] tau_default sigmoid_k_default
        sigmoid_x0_default).score = 0 := by
  have hcov : weighted_coverage (load_motion_events []) (load_music_events music)
      tau_default = 0 := by
    simp [load_motion_events, weighted_coverage]
  refine ⟨hcov, ?_, compute_match_score_no_motion music⟩
  show round (sigmoid ((weighted_coverage (load_motion_events [])
      (load_music_events music) tau_default : ℚ) : ℝ) _ _ * 100) = _
  rw [hcov]
  norm_num

/-! ## Claim theorems: stale monitor (C1) -/

/-- C1: evaluation of the status read at a failing input.  The request is
`running` and was started 1000 minutes before `now = 10000`; the
`analysis_jobs` row carries `updated_at = 9999`, i.e. the LiveStatus was
updated 1 minute ago, well inside a 30-minute stale threshold.  The claim
(and the spec's `now - last_updated > threshold` rule) says the read must
leave the request unchanged, but `get_job` never surfaces the `updated_at`
column, so `_mark_stale_running` falls back to `started_at` and the read
fails the request with "analysis stalled; please retry". -/
theorem c1_stale_read_despite_fresh_livestatus :
    ((10000 : ℤ) - 30 ≤ 9999)
    ∧ get_analysis_status 30 10000
        (some ⟨1, 7, some 2, none, "dance", false, false, false, "running", none,
               false, 8000, some 9000, none⟩)
        (some ⟨"running", none, some "motion: analyzing", some (45/100), none, 9999⟩)
        none
      = .ok (⟨1, 7, some 2, none, "dance", false, false, false, "failed",
              some "analysis stalled; please retry", false, 8000, some 9000,
              some 10000⟩,
             some ⟨"failed", some "analysis stalled; please retry", some "stalled",
                   some 1, none, 10000⟩,
             ⟨1, "failed", some "analysis stalled; please retry", some "stalled",
              some 1, none⟩) :=
  ⟨by norm_num, rfl⟩

/-! ## Claim theorems: claim protocol (C2) -/

theorem claimInv_of_init (s : ClaimState) (h : ClaimInit s) : ClaimInv s := by
  intro r
  exact ⟨fun _ => h.2 r, by rw [h.2 r]; simp, fun hl => absurd (h.1 r) hl⟩

theorem claimInv_step {s s' : ClaimState} (hs : ClaimInv s) (h : ClaimStep s s') :
    ClaimInv s' := by
  cases h with
  | fetch w r s hl hf =>
    intro q
    dsimp only
    refine ⟨(hs q).1, (hs q).2.1, fun hl2 => ?_⟩
    by_cases hqr : q = r
    · subst hqr; exact hf
    · exact (hs q).2.2 (by rwa [Function.update_noteq hqr] at hl2)
  | commit_running w r s hl =>
    intro q
    dsimp only
    by_cases hqr : q = r
    · subst hqr
      have hq : fetchable (s.status q) := (hs q).2.2 (by rw [hl]; simp)
      have hemp : s.claimedBy q = [] := (hs q).1 hq
      refine ⟨fun hf2 => ?_, ?_, fun hl2 => ?_⟩
      · rw [Function.update_same] at hf2
        rcases hf2 with h1 | h1 <;> simp at h1
      · rw [Function.update_same, hemp]
        simp
      · rw [Function.update_same] at hl2
        exact absurd rfl hl2
    · refine ⟨?_, ?_, ?_⟩
      · rw [Function.update_noteq hqr, Function.update_noteq hqr]
        exact (hs q).1
      · rw [Function.update_noteq hqr]
        exact (hs q).2.1
      · rw [Function.update_noteq hqr, Function.update_noteq hqr]
        exact (hs q).2.2

theorem claimInv_reach {s0 s : ClaimState} (h0 : ClaimInit s0) (h : ClaimReach s0 s) :
    ClaimInv s := by
  induction h with
  | refl => exact claimInv_of_init s0 h0
  | tail _ hstep ih => exact claimInv_step ih hstep

/-- C2: starting from a store where no row lock is held and no request has
been claimed, along any interleaving of worker fetch/claim steps (fetch skips
rows locked by another worker; only the lock holder may flip a request to
`running`), every request is transitioned to `running` by at most one worker. -/
theorem c2_no_double_claim (s0 s : ClaimState) (h0 : ClaimInit s0)
    (h : ClaimReach s0 s) (r : ℕ) : (s.claimedBy r).length ≤ 1 :=
  ((claimInv_reach h0 h) r).2.1

/-- C2 witness: one worker fetches and claims request 0 from an all-queued
store; the request's claim history has length 1. -/
theorem c2_no_double_claim_witness :
    ClaimInit ⟨fun _ => "queued", fun _ => none, fun _ => []⟩
    ∧ ((ClaimState.mk (Function.update (fun _ => "queued") 0 "running")
          (Function.update (Function.update (fun _ => none) 0 (some 0)) 0 none)
          (Function.update (fun _ => []) 0 ([] ++ [0]))).claimedBy 0).length ≤ 1 := by
  constructor
  · exact ⟨fun r => rfl, fun r => rfl⟩
  · refine c2_no_double_claim ⟨fun _ => "queued", fun _ => none, fun _ => []⟩ _
      ⟨fun r => rfl, fun r => rfl⟩ ?_ 0
    have h1 := ClaimStep.fetch 0 0 ⟨fun _ => "queued", fun _ => none, fun _ => []⟩
      rfl (Or.inl rfl)
    have h2 := ClaimStep.commit_running 0 0
      ⟨fun _ => "queued", Function.update (fun _ => none) 0 (some 0), fun _ => []⟩
      (by simp)
    exact Relation.ReflTransGen.tail (Relation.ReflTransGen.tail .refl h1) h2

/-! ## Claim theorems: match-score idempotence (C4) -/

/-- C4 counterexample: a result row holding a stored score of 97 (with a
motion artifact and a music key) is fed through the music-worker completion
path with a motion artifact that parses to an empty event list; the path
recomputes unconditionally and overwrites the stored score with 0. -/
theorem c4_music_path_overwrites_score :
    (⟨some "m", some "u", none, none, none, none, none, none, none, none, none,
      some 97, some ⟨97, 5/6, 3/10, 12, 11/20, 0⟩⟩ : AnalysisResultRow).match_score
      = some 97
    ∧ (music_worker_score_tail
        ⟨some "m", some "u", none, none, none, none, none, none, none, none, none,
         some 97, some ⟨97, 5/6, 3/10, 12, 11/20, 0⟩⟩
        (fun _ => .ok (.motionDoc [])) ⟨[], [], []⟩).match_score = some 0
    ∧ some (0:ℤ) ≠ some (97:ℤ) := by
  refine ⟨rfl, ?_, by simp⟩
  show some (compute_match_score ⟨[], [], []⟩ [] tau_default sigmoid_k_default
      sigmoid_x0_default).score = some 0
  rw [compute_match_score_no_motion]

/-- C4 (amended): the motion/magic completion path
(`_compute_match_if_ready`) really is a no-op once a non-null score is
stored — it neither raises nor writes; only the music-worker completion path
lacks the presence guard. -/
theorem c4_motion_path_blocked_by_stored_score (res : AnalysisResultRow)
    (fetch : String → Except String RawDoc) (h : res.match_score.isSome = true) :
    compute_match_if_ready (some res) fetch = .ok (some res) := by
  simp [compute_match_if_ready, h]

/-- C4 witness: a row with a stored score of 42 passes through the
motion/magic path untouched even though every fetch would fail. -/
theorem c4_motion_path_blocked_witness :
    (⟨some "m", some "u", none, none, none, none, none, none, none, none, none,
      some 42, none⟩ : AnalysisResultRow).match_score.isSome = true
    ∧ compute_match_if_ready
        (some ⟨some "m", some "u", none, none, none, none, none, none, none, none,
               none, some 42, none⟩)
        (fun _ => .error "download failed")
      = .ok (some ⟨some "m", some "u", none, none, none, none, none, none, none,
                   none, none, some 42, none⟩) :=
  ⟨rfl, c4_motion_path_blocked_by_stored_score _ _ rfl⟩

/-! ## Claim theorems: match-score failure handling (C5) -/

/-- C5 counterexample: a motion artifact that cannot be fetched.  The two
downloads in `_compute_match_if_ready` sit *before* the `try:` block, so the
failure propagates to `_tick`, which finishes the owning request as
`failed` — contradicting "never causes the owning request to finish as
failed". -/
theorem c5_fetch_failure_fails_request :
    compute_match_if_ready
        (some ⟨some "m", some "u", none, none, none, none, none, none, none, none,
               none, none, none⟩)
        (fun _ => .error "download failed")
      = .error "download failed"
    ∧ (tick_finalize 50 (run_match_phase
        ⟨1, 7, some 2, none, "dance", false, false, false, "running", none, false,
         0, some 1, none⟩
        (some ⟨some "m", some "u", none, none, none, none, none, none, none, none,
               none, none, none⟩)
        (fun _ => .error "download failed"))).1.status = "failed"
    ∧ (tick_finalize 50 (run_match_phase
        ⟨1, 7, some 2, none, "dance", false, false, false, "running", none, false,
         0, some 1, none⟩
        (some ⟨some "m", some "u", none, none, none, none, none, none, none, none,
               none, none, none⟩)
        (fun _ => .error "download failed"))).1.error_message
      = some "download failed" :=
  ⟨rfl, rfl, rfl⟩

/-- C5 (amended): when both artifacts can be downloaded, no failure inside
match scoring escapes — parse failures (`json.load`) and the computation are
inside the `try:` and are swallowed — and the owning request completes its
normal `done` transition; only a download failure escapes (counterexample). -/
theorem c5_errors_swallowed_when_downloads_succeed
    (res : Option AnalysisResultRow) (fetch : String → Except String RawDoc)
    (req : AnalysisRequestRow) (now : ℤ)
    (hfetch : ∀ k, except_ok (fetch k) = true)
    (hreq : req.status ≠ "queued_music") :
    except_ok (compute_match_if_ready res fetch) = true
    ∧ (tick_finalize now (run_match_phase req res fetch)).1.status = "done" := by
  have hok : except_ok (compute_match_if_ready res fetch) = true := by
    obtain _ | r := res
    · rfl
    · by_cases hsc : r.match_score.isSome
      · simp [compute_match_if_ready, hsc, except_ok]
      · rcases hmk : motion_key_of r with _ | mk
        · simp [compute_match_if_ready, hsc, hmk, except_ok]
        · rcases hmu : r.music_json_s3_key with _ | muk
          · simp [compute_match_if_ready, hsc, hmk, hmu, except_ok]
          · have h1 := hfetch mk
            have h2 := hfetch muk
            rcases hf1 : fetch mk with e1 | d1
            · rw [hf1] at h1; simp [except_ok] at h1
            · rcases hf2 : fetch muk with e2 | d2
              · rw [hf2] at h2; simp [except_ok] at h2
              · rcases hp1 : json_load_motion d1 with _ | motion <;>
                  rcases hp2 : json_load_music d2 with _ | music <;>
                  simp [compute_match_if_ready, hsc, hmk, hmu, hf1, hf2, hp1, hp2,
                    except_ok]
  refine ⟨hok, ?_⟩
  rcases hr : compute_match_if_ready res fetch with e | out
  · rw [hr] at hok; simp [except_ok] at hok
  · simp [run_match_phase, hr, tick_finalize, hreq]

/-- C5 witness: both artifacts fetch successfully (the motion one even
parses to an empty event list), nothing escapes, and the request finishes
`done`. -/
theorem c5_errors_swallowed_witness :
    (∀ k : String, except_ok
        ((fun _ => (Except.ok (RawDoc.motionDoc []) : Except String RawDoc)) k) = true)
    ∧ ("running" : String) ≠ "queued_music"
    ∧ except_ok (compute_match_if_ready
        (some ⟨some "m", some "u", none, none, none, none, none, none, none, none,
               none, none, none⟩)
        (fun _ => Except.ok (RawDoc.motionDoc []))) = true
    ∧ (tick_finalize 50 (run_match_phase
        ⟨1, 7, some 2, none, "dance", false, false, false, "running", none, false,
         0, some 1, none⟩
        (some ⟨some "m", some "u", none, none, none, none, none, none, none, none,
               none, none, none⟩)
        (fun _ => Except.ok (RawDoc.motionDoc [])))).1.status = "done" := by
  refine ⟨fun k => rfl, by simp, ?_⟩
  exact c5_errors_swallowed_when_downloads_succeed _ _ _ _ (fun k => rfl) (by simp)

/-! ## Claim theorems: progress monotonicity (C6) -/

/-- C6 counterexample: in the music-worker path, when a motion/object
artifact already exists the scoring block publishes 0.92 *after* the 0.95
"uploading results" checkpoint, so the externally observed progress stream
is not monotonically non-decreasing. -/
theorem c6_music_scoring_progress_regresses :
    ¬ List.Chain' (· ≤ ·) (music_progress_seq false false false true) := by
  norm_num [music_progress_seq, music_cb_seq, List.chain'_cons]

/-- C6 (amended): the dance and magic paths publish non-decreasing progress
at every checkpoint (scoring included), and the music-worker path does too
*unless* its final scoring block runs, which republishes 0.92 after 0.95. -/
theorem c6_progress_monotone_except_music_scoring :
    (∀ scoring : Bool, List.Chain' (· ≤ ·) (dance_progress_seq scoring))
    ∧ (∀ scoring : Bool, List.Chain' (· ≤ ·) (magic_progress_seq scoring))
    ∧ (∀ from_video drum_bands bass : Bool,
        List.Chain' (· ≤ ·) (music_progress_seq from_video drum_bands bass false)) := by
  refine ⟨fun sc => ?_, fun sc => ?_, fun fv db bs => ?_⟩
  · cases sc <;> norm_num [dance_progress_seq, List.chain'_cons]
  · cases sc <;> norm_num [magic_progress_seq, List.chain'_cons]
  · cases fv <;> cases db <;> cases bs <;>
      norm_num [music_progress_seq, music_cb_seq, List.chain'_cons]

/-! ## Claim theorems: mid-run delete (C7) -/

/-- C7 counterexample: a request whose deleted flag is set mid-run.  The
next checkpoint does abort with the distinct `deleted` outcome, but the
dispatcher routes it through the generic failure branch: the request is
marked `failed` with error `deleted` and a `failed` LiveStatus is
published — not the silent no-op the claim asserts. -/
theorem c7_deleted_abort_is_not_silent :
    abort_if_deleted
        ⟨1, 7, some 2, none, "dance", false, false, false, "running", none, true,
         0, some 1, none⟩
      = .error ("deleted",
        ⟨1, 7, some 2, none, "dance", false, false, false, "running", none, true,
         0, some 1, none⟩)
    ∧ (tick_finalize 50 (.raised "deleted"
        ⟨1, 7, some 2, none, "dance", false, false, false, "running", none, true,
         0, some 1, none⟩)).1.status = "failed"
    ∧ (tick_finalize 50 (.raised "deleted"
        ⟨1, 7, some 2, none, "dance", false, false, false, "running", none, true,
         0, some 1, none⟩)).1.error_message = some "deleted"
    ∧ ((tick_finalize 50 (.raised "deleted"
        ⟨1, 7, some 2, none, "dance", false, false, false, "running", none, true,
         0, some 1, none⟩)).2.map PublishedStatus.status) = ["failed"] :=
  ⟨rfl, rfl, rfl, rfl⟩

/-- C7 (amended): once the deleted flag is set, the sub-task does observe it
at the next checkpoint and aborts with the distinct `deleted` outcome; the
dispatcher then marks the request `failed` with error `deleted` (generic
failure path, not a silent no-op) — but a status read of the soft-deleted
request answers 404, so the failed state is not served to the owner. -/
theorem c7_deleted_abort_marks_failed_but_hidden (req : AnalysisRequestRow)
    (now : ℤ) (h : req.is_deleted = true) :
    abort_if_deleted req = .error ("deleted", req)
    ∧ (tick_finalize now (.raised "deleted" req)).1.status = "failed"
    ∧ (tick_finalize now (.raised "deleted" req)).1.error_message = some "deleted"
    ∧ get_analysis_status 30 now (some (tick_finalize now (.raised "deleted" req)).1)
        none none = .error (404, "not found") := by
  refine ⟨by simp [abort_if_deleted, h], rfl, rfl, ?_⟩
  simp [get_analysis_status, tick_finalize, h]

/-- C7 witness: the amended behaviour at a concrete deleted request. -/
theorem c7_deleted_abort_witness :
    (⟨1, 7, some 2, none, "dance", false, false, false, "running", none, true,
      0, some 1, none⟩ : AnalysisRequestRow).is_deleted = true
    ∧ abort_if_deleted
        ⟨1, 7, some 2, none, "dance", false, false, false, "running", none, true,
         0, some 1, none⟩
      = .error ("deleted",
        ⟨1, 7, some 2, none, "dance", false, false, false, "running", none, true,
         0, some 1, none⟩)
    ∧ (tick_finalize 60 (.raised "deleted"
        ⟨1, 7, some 2, none, "dance", false, false, false, "running", none, true,
         0, some 1, none⟩)).1.status = "failed"
    ∧ (tick_finalize 60 (.raised "deleted"
        ⟨1, 7, some 2, none, "dance", false, false, false, "running", none, true,
         0, some 1, none⟩)).1.error_message = some "deleted"
    ∧ get_analysis_status 30 60 (some (tick_finalize 60 (.raised "deleted"
        ⟨1, 7, some 2, none, "dance", false, false, false, "running", none, true,
         0, some 1, none⟩)).1) none none = .error (404, "not found") :=
  ⟨rfl, c7_deleted_abort_marks_failed_but_hidden _ 60 rfl⟩

/-! ## Claim theorems: ownership rejection (C8) -/

/-- C8 counterexample: media id 1 exists but belongs to user 2; submitter 1
referencing it gets a **403 "video must belong to you"**, while referencing
the non-existent media id 99 gets a 404 "video media not found" — the two
rejections differ in both status and detail, so ownership failure is
distinguishable from non-existence, contradicting the claim. -/
theorem c8_ownership_rejection_distinguishable :
    create_analysis_request [⟨1, 2, "video", "k"⟩] 1
        ⟨some 1, none, "dance", false, false, false⟩
      = .error (403, "video must belong to you")
    ∧ create_analysis_request [⟨1, 2, "video", "k"⟩] 1
        ⟨some 99, none, "dance", false, false, false⟩
      = .error (404, "video media not found")
    ∧ ((403:ℕ), "video must belong to you") ≠ ((404:ℕ), "video media not found") :=
  ⟨rfl, rfl, by simp⟩

/-- C8 (amended): a submission referencing another user's video is rejected
synchronously with 403 Forbidden and detail "video must belong to you",
while a missing video yields 404 "video media not found" — the existence of
the media is therefore leaked by the status code. -/
theorem c8_ownership_is_403 (store : List MediaFileRow) (user_id : ℕ)
    (p : AnalysisRequestCreatePayload) (v : ℕ) (hv : p.video_id = some v) :
    (∀ m, media_by_id store v = some m → m.user_id ≠ user_id →
        create_analysis_request store user_id p
          = .error (403, "video must belong to you"))
    ∧ (media_by_id store v = none →
        create_analysis_request store user_id p
          = .error (404, "video media not found")) := by
  constructor
  · intro m hm howner
    simp [create_analysis_request, hv, require_owned_media, hm, howner, Except.map]
  · intro hm
    simp [create_analysis_request, hv, require_owned_media, hm, Except.map]

/-- C8 witness: the 403 branch of the amended theorem at the concrete
store. -/
theorem c8_ownership_is_403_witness :
    (⟨some 1, none, "dance", false, false, false⟩
        : AnalysisRequestCreatePayload).video_id = some 1
    ∧ create_analysis_request [⟨1, 2, "video", "k"⟩] 1
        ⟨some 1, none, "dance", false, false, false⟩
      = .error (403, "video must belong to you") :=
  ⟨rfl, (c8_ownership_is_403 [⟨1, 2, "video", "k"⟩] 1
    ⟨some 1, none, "dance", false, false, false⟩ 1 rfl).1
    ⟨1, 2, "video", "k"⟩ rfl (by simp)⟩

/-! ## Claim theorems: delete idempotence (C10) -/

/-- C10: deleting an already-soft-deleted request is a no-op for its owner:
the call succeeds, every stored row (request, result, edit, job) is left
exactly as it was, and no storage key is deleted. -/
theorem c10_second_delete_is_noop (st : DbStore) (user_id : ℕ) (now : ℤ)
    (req : AnalysisRequestRow) (hreq : st.req = some req)
    (howner : req.user_id = user_id) (hdel : req.is_deleted = true) :
    delete_analysis_request st user_id now = .ok (st, []) := by
  simp [delete_analysis_request, hreq, howner, hdel]

/-- C10 witness: a second owner delete of a concrete soft-deleted request
returns the store unchanged with no key deletions. -/
theorem c10_second_delete_is_noop_witness :
    (DbStore.mk (some ⟨1, 7, some 2, none, "dance", false, false, false, "failed",
        some "deleted", true, 0, some 1, some 2⟩) none none none).req
      = some ⟨1, 7, some 2, none, "dance", false, false, false, "failed",
        some "deleted", true, 0, some 1, some 2⟩
    ∧ (⟨1, 7, some 2, none, "dance", false, false, false, "failed",
        some "deleted", true, 0, some 1, some 2⟩ : AnalysisRequestRow).user_id = 7
    ∧ (⟨1, 7, some 2, none, "dance", false, false, false, "failed",
        some "deleted", true, 0, some 1, some 2⟩
        : AnalysisRequestRow).is_deleted = true
    ∧ delete_analysis_request
        (DbStore.mk (some ⟨1, 7, some 2, none, "dance", false, false, false,
          "failed", some "deleted", true, 0, some 1, some 2⟩) none none none) 7 99
      = .ok (DbStore.mk (some ⟨1, 7, some 2, none, "dance", false, false, false,
          "failed", some "deleted", true, 0, some 1, some 2⟩) none none none, []) :=
  ⟨rfl, rfl, rfl, c10_second_delete_is_noop _ 7 99 _ rfl rfl rfl⟩

end MadcampW4
